import Mathlib

/-!
Verification of the Stock Analysis AI assistant (`Stockapp.py`).

The logical core of the program is embedded shallowly:
* Python string primitives (`strip`, `replace`, `startswith`, `split`,
  `capitalize`, the `in` substring/membership operator) are modelled as
  executable Lean functions on `List Char` / `String`;
* the conversation store is a `List Message`; the module-level send handler
  (lines 313-332) becomes an explicit state-passing function and a
  reachability relation;
* `query_huggingface` (lines 135-207) becomes a total function from the
  configuration, the prompt, the serialized context and an abstract HTTP
  outcome to the returned string; Python exceptions become an `Except` value
  threaded through the translated try-block.
-/

namespace Stockapp

/-! ## Python string primitives -/

/-- Python whitespace characters (ASCII range), as stripped by `str.strip()`. -/
def isPySpace (c : Char) : Bool :=
  c == ' ' || c == '\t' || c == '\n' || c == '\r' || c == '\x0b' || c == '\x0c'

/-- Python `str.strip()`: remove leading and trailing whitespace. -/
def pyStrip (s : String) : String :=
  String.mk (((s.data.dropWhile isPySpace).reverse.dropWhile isPySpace).reverse)

/-- Prefix test on character lists: `startsWithL p s` iff `p` is a prefix of `s`. -/
def startsWithL : List Char → List Char → Bool
  | [], _ => true
  | _ :: _, [] => false
  | p :: ps, c :: cs => p == c && startsWithL ps cs

/-- Python `str.startswith(pat)`. -/
def pyStartsWith (s pat : String) : Bool :=
  startsWithL pat.data s.data

/-- Occurrence test on character lists: Python `pat in s` for strings. -/
def occursIn (pat : List Char) : List Char → Bool
  | [] => startsWithL pat []
  | c :: cs => startsWithL pat (c :: cs) || occursIn pat cs

/-- Python `pat in s` for strings (substring containment). -/
def strContains (s pat : String) : Bool :=
  occursIn pat.data s.data

/-- Replace every left-to-right non-overlapping occurrence of `pat` by `rep`
(Python `str.replace` with a non-empty pattern).  While `skip` is positive the
character belongs to an already-matched occurrence and is consumed silently;
on a fresh match the `rep` text is emitted and the remaining `pat.length - 1`
matched characters are scheduled to be skipped. -/
def replaceAllAux (pat rep : List Char) : Nat → List Char → List Char
  | _, [] => []
  | k + 1, _ :: cs => replaceAllAux pat rep k cs
  | 0, c :: cs =>
    if startsWithL pat (c :: cs) then
      rep ++ replaceAllAux pat rep (pat.length - 1) cs
    else
      c :: replaceAllAux pat rep 0 cs

/-- Python `s.replace(pat, rep)`.  The source only calls it with the non-empty
patterns `"User:"` and `"Assistant:"`; for an empty pattern we return `s`
unchanged (Python would interleave `rep`, a case the program never exercises). -/
def pyReplace (s pat rep : String) : String :=
  match pat.data with
  | [] => s
  | _ :: _ => String.mk (replaceAllAux pat.data rep.data 0 s.data)

/-- Python `s.split(sep)` for a one-character separator, keeping empty pieces. -/
def splitOnCharL (sep : Char) : List Char → List (List Char)
  | [] => [[]]
  | c :: cs =>
    let r := splitOnCharL sep cs
    if c == sep then [] :: r
    else
      match r with
      | [] => [[c]]
      | h :: t => (c :: h) :: t

/-- Python `context.split('\n')`. -/
def splitLines (s : String) : List String :=
  (splitOnCharL '\n' s.data).map String.mk

/-- Python `"\n".join(pieces)` (and `", ".join` for reprs). -/
def joinWith (sep : String) : List String → String
  | [] => ""
  | [x] => x
  | x :: y :: xs => x ++ sep ++ joinWith sep (y :: xs)

/-- Python `str.capitalize()`: first character upper-cased, the rest lower-cased. -/
def pyCapitalize (s : String) : String :=
  match s.data with
  | [] => ""
  | c :: cs => String.mk (c.toUpper :: cs.map Char.toLower)

/-! ## Data model -/

/-- A chat message, mirroring the Python dicts `{"role": ..., "content": ...}`. -/
structure Message where
  role : String
  content : String
deriving DecidableEq, Repr

/-! ## Context windowing (module-level send handler, lines 317-319)

`context_messages = st.session_state.messages[-6:] if len(...) > 6 else ...`
`context = "\n".join([f"{msg['role'].capitalize()}: {msg['content']}" for msg in context_messages[:-1]])` -/

/-- Line 318: the bounded context window over the store (Python `messages[-6:]`
when the store holds more than 6 entries, the whole store otherwise). -/
def context_messages (messages : List Message) : List Message :=
  if messages.length > 6 then messages.drop (messages.length - 6) else messages

/-- How line 319 renders one message into the serialized context. -/
def formatMsg (m : Message) : String :=
  pyCapitalize m.role ++ ": " ++ m.content

/-- Line 319: the serialized context string; `context_messages[:-1]` excludes
the just-appended current message. -/
def serializeContext (messages : List Message) : String :=
  joinWith "\n" ((context_messages messages).dropLast.map formatMsg)

/-! ## Configuration (lines 12-14; environment defaults) -/

/-- Default endpoint URL (line 13). -/
def API_URL : String := "https://router.huggingface.co/v1/chat/completions"

/-- Default model identifier (line 14). -/
def MODEL_NAME : String := "google/gemma-2-2b-it"

/-- Python truthiness test `not HF_API_KEY` (line 138): the credential is
treated as missing when the environment variable is absent or empty. -/
def keyMissing : Option String → Bool
  | none => true
  | some s => s == ""

/-- The fixed instructional preamble `SYSTEM_PROMPT` (lines 111-133), verbatim. -/
def SYSTEM_PROMPT : String :=
  "You are a friendly and knowledgeable stock market analysis assistant designed for beginners. \nYour role is to help users understand stock market concepts, analyze stocks, and make informed investment decisions.\n\nGuidelines:\n- Explain concepts in simple, easy-to-understand language\n- Use examples and analogies when explaining complex topics\n- Provide balanced analysis considering both risks and opportunities\n- Always remind users that this is educational information, not financial advice\n- Be encouraging and supportive to beginners\n- Break down complex topics into digestible parts\n- Use bullet points for clarity when listing multiple points\n\nTopics you can help with:\n- Stock fundamentals (P/E ratio, EPS, Market Cap, etc.)\n- Technical analysis basics\n- Investment strategies\n- Market trends and sectors\n- Risk management\n- Portfolio diversification\n- Reading financial statements\n- Understanding market news\n\nAlways be helpful, clear, and educational in your responses."

/-! ## Request construction (lines 146-161) -/

/-- Lines 154-158: how one line of the serialized context is turned back into a
role-tagged entry.  A line starting with `"User:"` / `"Assistant:"` yields a
user / assistant entry whose content is the line with every occurrence of the
matched token removed and then stripped; any other line yields nothing. -/
def parseHistoryLine (line : String) : Option Message :=
  if pyStartsWith line "User:" then
    some ⟨"user", pyStrip (pyReplace line "User:" "")⟩
  else if pyStartsWith line "Assistant:" then
    some ⟨"assistant", pyStrip (pyReplace line "Assistant:" "")⟩
  else none

/-- Lines 152-158: the history entries reconstructed from the context string
(`if context:` guards the whole loop, so an empty context yields no entries). -/
def parseHistory (ctx : String) : List Message :=
  if ctx = "" then [] else (splitLines ctx).filterMap parseHistoryLine

/-- Lines 147-161: the `messages` array of the request payload: the system
preamble, then the reconstructed history, then the current prompt. -/
def buildMessages (prompt ctx : String) : List Message :=
  ⟨"system", SYSTEM_PROMPT⟩ :: (parseHistory ctx ++ [⟨"user", prompt⟩])

/-! ## Decoded JSON values and Python dynamic operations -/

/-- A decoded JSON value, as produced by `response.json()`. -/
inductive Json where
  | null
  | jbool (b : Bool)
  | num (n : Int)
  | str (s : String)
  | arr (xs : List Json)
  | obj (kvs : List (String × Json))

/-- A Python exception as observed by the two `except` clauses of the source:
either a `requests.exceptions.RequestException` (carrying `str(e)`) or any
other exception. -/
inductive PyExc where
  | requestException (msg : String)
  | otherException (msg : String)

/-- First-match key lookup in an object (Python dicts have unique keys, so
first-match agrees with dict lookup on every value `response.json()` yields). -/
def lookupKey : List (String × Json) → String → Option Json
  | [], _ => none
  | (k2, v) :: rest, k => if k2 == k then some v else lookupKey rest k

/-- Python `k in j` for a string `k` (line 189): key membership for a dict,
element membership for a list, substring test for a string, `TypeError`
otherwise.  The modelled exception messages are abbreviations of CPython's;
the source only ever embeds them into the generic unexpected-error text. -/
def pyInOp (k : String) (j : Json) : Except PyExc Bool :=
  match j with
  | .obj kvs => .ok (kvs.any (fun kv => kv.1 == k))
  | .arr xs => .ok (xs.any (fun x => match x with | .str s => s == k | _ => false))
  | .str s => .ok (strContains s k)
  | _ => .error (.otherException "argument of type is not iterable")

/-- Python `j[k]` for a string key `k` (line 190): dict lookup (`KeyError` when
absent), `TypeError` on anything else. -/
def pySubscriptStr (j : Json) (k : String) : Except PyExc Json :=
  match j with
  | .obj kvs =>
    match lookupKey kvs k with
    | some v => .ok v
    | none => .error (.otherException "KeyError")
  | _ => .error (.otherException "indices must be integers")

/-- Python `len(j)` (line 189): defined for sized values, `TypeError` otherwise. -/
def pyLen (j : Json) : Except PyExc Nat :=
  match j with
  | .arr xs => .ok xs.length
  | .str s => .ok s.length
  | .obj kvs => .ok kvs.length
  | _ => .error (.otherException "object has no len")

/-- Python `j[0]` (line 190): first element of a list or string
(`IndexError` when empty), `KeyError` for a dict with string keys,
`TypeError` otherwise. -/
def pyIndex0 (j : Json) : Except PyExc Json :=
  match j with
  | .arr [] => .error (.otherException "list index out of range")
  | .arr (x :: _) => .ok x
  | .str s =>
    match s.data with
    | [] => .error (.otherException "string index out of range")
    | c :: _ => .ok (.str (String.mk [c]))
  | .obj _ => .error (.otherException "KeyError")
  | _ => .error (.otherException "object is not subscriptable")

/-- Python `j.get(k, dflt)` (line 190): only dicts have `.get`; anything else
raises `AttributeError`. -/
def pyDictGet (j : Json) (k : String) (dflt : Json) : Except PyExc Json :=
  match j with
  | .obj kvs =>
    match lookupKey kvs k with
    | some v => .ok v
    | none => .ok dflt
  | _ => .error (.otherException "object has no attribute get")

/-- Python truthiness of a decoded JSON value (line 191 `if message_content:`). -/
def pyTruthy : Json → Bool
  | .null => false
  | .jbool b => b
  | .num n => n != 0
  | .str s => s != ""
  | .arr xs => !xs.isEmpty
  | .obj kvs => !kvs.isEmpty

/-- Python `j.strip()` (line 192): only strings have `.strip`; anything else
raises `AttributeError`. -/
def pyStripAttr (j : Json) : Except PyExc String :=
  match j with
  | .str s => .ok (pyStrip s)
  | _ => .error (.otherException "object has no attribute strip")

mutual

/-- Python `str(j)` for a decoded JSON value, as interpolated by the f-string
on line 196: dict/list reprs with string values quoted.  (CPython switches
quoting styles for strings containing quotes; the bodies the claims exercise
contain none.) -/
def pyRepr : Json → String
  | .null => "None"
  | .jbool true => "True"
  | .jbool false => "False"
  | .num n => toString n
  | .str s => "\x27" ++ s ++ "\x27"
  | .arr xs => "[" ++ joinWith ", " (pyReprList xs) ++ "]"
  | .obj kvs => "\x7b" ++ joinWith ", " (pyReprObj kvs) ++ "\x7d"

/-- Reprs of the elements of a JSON array (helper for `pyRepr`). -/
def pyReprList : List Json → List String
  | [] => []
  | x :: xs => pyRepr x :: pyReprList xs

/-- Reprs of the key/value pairs of a JSON object (helper for `pyRepr`). -/
def pyReprObj : List (String × Json) → List String
  | [] => []
  | (k, v) :: kvs => ("\x27" ++ k ++ "\x27: " ++ pyRepr v) :: pyReprObj kvs

end

/-! ## The completion client `query_huggingface` (lines 135-207) -/

/-- The outcome of the `requests.post` call on line 173, as an abstract
environment: either a response arrived with a status code and a body (where
`body = .error m` means `response.json()` raised a `JSONDecodeError`, which in
`requests` is a subclass of `RequestException`, with message `m`), or the post
itself raised a `RequestException` (connection failure, timeout) with
message `msg`. -/
inductive HttpOutcome where
  | response (status : Nat) (body : Except String Json)
  | exn (msg : String)

/-- The message of the `HTTPError` that `response.raise_for_status()` (line
185) raises for a status in 400-599: `requests` formats it as
`"{code} Client Error: {reason} for url: {url}"` (`Server` for 5xx).  The
purely alphabetic reason phrase is omitted here; it contains no digit, so the
`"401"`/`"404"` substring tests of lines 200-202 are unaffected. -/
def httpErrorMsg (status : Nat) : String :=
  if status < 500 then toString status ++ " Client Error for url: " ++ API_URL
  else toString status ++ " Server Error for url: " ++ API_URL

/-- Lines 189-196: extract the completion text from the decoded body, with
Python's dynamic errors surfaced as exceptions. -/
def extractFromResult (result : Json) : Except PyExc String :=
  match pyInOp "choices" result with
  | .error e => .error e
  | .ok false => .ok ("⚠️ Unexpected response format: " ++ pyRepr result)
  | .ok true =>
    match pySubscriptStr result "choices" with
    | .error e => .error e
    | .ok choices =>
      match pyLen choices with
      | .error e => .error e
      | .ok n =>
        if n > 0 then
          match pyIndex0 choices with
          | .error e => .error e
          | .ok c0 =>
            match pyDictGet c0 "message" (Json.obj []) with
            | .error e => .error e
            | .ok msg =>
              match pyDictGet msg "content" (Json.str "") with
              | .error e => .error e
              | .ok content =>
                if pyTruthy content then
                  pyStripAttr content
                else
                  .ok "I apologize, but I couldn\x27t generate a response. Please try rephrasing your question."
        else
          .ok ("⚠️ Unexpected response format: " ++ pyRepr result)

/-- The body of the `try` block, lines 172-196: status classification in
source order (503, then 401, then 429, then `raise_for_status`, then JSON
decoding and extraction).  A raised exception is returned as `.error`. -/
def tryBody (outcome : HttpOutcome) : Except PyExc String :=
  match outcome with
  | .exn msg => .error (.requestException msg)
  | .response status body =>
    if status = 503 then
      .ok "⏳ Model is currently loading. Please try again in a moment."
    else if status = 401 then
      .ok "❌ Invalid API key. Please check your HF_API_KEY in the .env file."
    else if status = 429 then
      .ok "⚠️ Rate limit reached. Please wait a moment and try again."
    else if 400 ≤ status ∧ status < 600 then
      .error (.requestException (httpErrorMsg status))
    else
      match body with
      | .error m => .error (.requestException m)
      | .ok result => extractFromResult result

/-- `query_huggingface(prompt, context)` (lines 135-207).  `key` is the
`HF_API_KEY` configuration and `outcome` the abstract result of the HTTP post;
when the credential is missing the function returns before the post, so the
result does not consult `outcome`.  The request payload it would post carries
`buildMessages prompt ctx`. -/
def query_huggingface (key : Option String) (prompt ctx : String)
    (outcome : HttpOutcome) : String :=
  if keyMissing key then
    "❌ HF_API_KEY not found in .env file. Please add your Hugging Face API token."
  else
    match tryBody outcome with
    | .ok s => s
    | .error (.requestException m) =>
      if strContains m "401" then
        "❌ Authentication failed. Please verify your HF_API_KEY."
      else if strContains m "404" then
        "❌ Model \x27" ++ MODEL_NAME ++ "\x27 not found. Please check your MODEL_NAME in .env file."
      else
        "⚠️ Connection error: " ++ m ++ "\n\nPlease check:\n- Your internet connection\n- Your HF_API_KEY\n- The API endpoint URL"
    | .error (.otherException m) =>
      "⚠️ Unexpected error: " ++ m

/-! ## The send handler and store reachability (lines 242-245, 313-332) -/

/-- Lines 313-326: the send handler.  The prompt is appended as a user entry,
the context window is serialized from the updated store, the client is queried
and its reply appended as an assistant entry. -/
def sendHandler (msgs : List Message) (prompt : String) (key : Option String)
    (outcome : HttpOutcome) : List Message :=
  let msgs1 := msgs ++ [⟨"user", prompt⟩]
  let ctx := serializeContext msgs1
  msgs1 ++ [⟨"assistant", query_huggingface key prompt ctx outcome⟩]

/-- The stores reachable over a process lifetime: the store starts empty
(line 105), grows by the send handler (guarded on line 313 by a non-empty
prompt and a configured key), and is reset to empty by the clear action
(lines 242-245). -/
inductive Reachable : List Message → Prop where
  | init : Reachable []
  | send {msgs : List Message} {prompt : String} {key : Option String}
      {outcome : HttpOutcome} : Reachable msgs → prompt ≠ "" →
      keyMissing key = false → Reachable (sendHandler msgs prompt key outcome)
  | clear {msgs : List Message} : Reachable msgs → Reachable []

end Stockapp

namespace Stockapp

/-! ## Claim C1 -/

theorem context_messages_eq_drop (msgs : List Message) :
    context_messages msgs = msgs.drop (msgs.length - 6) := by
  unfold context_messages
  split
  · rfl
  · rw [Nat.sub_eq_zero_of_le (by omega), List.drop_zero]

/-- C1: when a prompt is answered the store is `pre ++ [cur]` with `cur` the
just-appended current message; the context window is exactly the last 6 entries
of the store (all of it when it holds 6 or fewer), a suffix in original order,
and the serialized history portion excludes the current message: it renders
exactly `pre.drop (pre.length + 1 - 6)`, i.e. the window minus `cur`. -/
theorem C1_context_window (pre : List Message) (cur : Message) :
    context_messages (pre ++ [cur]) = (pre ++ [cur]).drop (pre.length + 1 - 6)
    ∧ (context_messages (pre ++ [cur])).length = min 6 (pre.length + 1)
    ∧ context_messages (pre ++ [cur]) <:+ (pre ++ [cur])
    ∧ (context_messages (pre ++ [cur])).dropLast = pre.drop (pre.length + 1 - 6)
    ∧ serializeContext (pre ++ [cur]) =
        joinWith "\n" ((pre.drop (pre.length + 1 - 6)).map formatMsg) := by
  have hlen : (pre ++ [cur]).length = pre.length + 1 := by simp
  have h1 : context_messages (pre ++ [cur]) = (pre ++ [cur]).drop (pre.length + 1 - 6) := by
    rw [context_messages_eq_drop, hlen]
  have hdrop : (pre ++ [cur]).drop (pre.length + 1 - 6)
      = pre.drop (pre.length + 1 - 6) ++ [cur] := by
    rw [List.drop_append_of_le_length (by omega)]
  refine ⟨h1, ?_, ?_, ?_, ?_⟩
  · rw [h1, List.length_drop, hlen]; omega
  · rw [h1]; exact ⟨(pre ++ [cur]).take (pre.length + 1 - 6), List.take_append_drop _ _⟩
  · rw [h1, hdrop, List.dropLast_concat]
  · unfold serializeContext
    rw [h1, hdrop, List.dropLast_concat]

/-! ## Claim C2 -/

/-- C2: with no credential configured, the client returns the
configuration-error text for every prompt and context, and the result is the
same whatever the HTTP environment would have answered — the post is never
consulted. -/
theorem C2_missing_key_short_circuit (key : Option String) (prompt ctx : String)
    (h : keyMissing key = true) :
    ∀ outcome : HttpOutcome, query_huggingface key prompt ctx outcome =
      "❌ HF_API_KEY not found in .env file. Please add your Hugging Face API token." := by
  intro outcome
  unfold query_huggingface
  rw [h]
  rfl

/-- C2 witness: the absent credential at a concrete prompt and outcome. -/
theorem C2_witness :
    keyMissing none = true ∧
    query_huggingface none "What is a P/E ratio?" "" (.exn "timeout") =
      "❌ HF_API_KEY not found in .env file. Please add your Hugging Face API token." :=
  ⟨rfl, C2_missing_key_short_circuit none "What is a P/E ratio?" "" rfl (.exn "timeout")⟩

/-! ## Claim C3 -/

/-- C3: with a configured credential, statuses 503, 401 and 429 map to their
fixed classification texts verbatim, whatever the body and the prompt. -/
theorem C3_status_classification (key : Option String) (prompt ctx : String)
    (body : Except String Json) (h : keyMissing key = false) :
    query_huggingface key prompt ctx (.response 503 body) =
      "⏳ Model is currently loading. Please try again in a moment."
    ∧ query_huggingface key prompt ctx (.response 401 body) =
      "❌ Invalid API key. Please check your HF_API_KEY in the .env file."
    ∧ query_huggingface key prompt ctx (.response 429 body) =
      "⚠️ Rate limit reached. Please wait a moment and try again." := by
  refine ⟨?_, ?_, ?_⟩ <;> (unfold query_huggingface; rw [h]; rfl)

/-- C3 witness: a concrete key, prompt and body at status 503. -/
theorem C3_witness :
    keyMissing (some "hf_token") = false ∧
    query_huggingface (some "hf_token") "p" "" (.response 503 (.ok Json.null)) =
      "⏳ Model is currently loading. Please try again in a moment." :=
  ⟨by decide, (C3_status_classification (some "hf_token") "p" "" (.ok Json.null) (by decide)).1⟩

/-! ## Claim C4 -/

/-- C4 counterexample: status 404 is a non-success status other than 401, 429
and 503, yet the client does not return the generic connection-error text: the
`"404" in error_msg` test of line 202 matches the `HTTPError` message, so the
model-not-found text is returned instead. -/
theorem C4_counterexample :
    query_huggingface (some "hf_token") "p" "" (.response 404 (.ok (Json.obj []))) =
      "❌ Model \x27google/gemma-2-2b-it\x27 not found. Please check your MODEL_NAME in .env file."
    ∧ pyStartsWith
        (query_huggingface (some "hf_token") "p" "" (.response 404 (.ok (Json.obj []))))
        "⚠️ Connection error: " = false := by
  refine ⟨by decide, by decide⟩

set_option maxRecDepth 40000 in
set_option maxHeartbeats 1000000 in
/-- For every status in the 400-599 range that `raise_for_status` turns into an
`HTTPError`, other than 401 and 404, the error message contains neither
`"401"` nor `"404"`. -/
theorem httpErrorMsg_no_401_404 :
    ∀ d : Nat, d < 200 → 400 + d ≠ 401 → 400 + d ≠ 404 →
      strContains (httpErrorMsg (400 + d)) "401" = false
      ∧ strContains (httpErrorMsg (400 + d)) "404" = false := by
  decide

/-- C4 (amended): every HTTP error status in 400-599 other than 401, 404, 429
and 503 is raised by `raise_for_status` as a generic error, caught, and
surfaced as the generic connection-error text including the underlying
`HTTPError` message (404 instead yields a model-not-found text, and statuses
outside 400-599 do not raise at all). -/
theorem C4_amended_generic_connection_error (key : Option String)
    (prompt ctx : String) (body : Except String Json) (s : Nat)
    (hk : keyMissing key = false) (h1 : 400 ≤ s) (h2 : s < 600)
    (h3 : s ≠ 401) (h4 : s ≠ 404) (h5 : s ≠ 429) (h6 : s ≠ 503) :
    query_huggingface key prompt ctx (.response s body) =
      "⚠️ Connection error: " ++ httpErrorMsg s ++
        "\n\nPlease check:\n- Your internet connection\n- Your HF_API_KEY\n- The API endpoint URL" := by
  have hs : 400 + (s - 400) = s := by omega
  have hno := httpErrorMsg_no_401_404 (s - 400) (by omega) (by omega) (by omega)
  rw [hs] at hno
  unfold query_huggingface tryBody
  rw [hk]
  simp only [Bool.false_eq_true, if_false]
  rw [if_neg h6, if_neg h3, if_neg h5, if_pos ⟨h1, h2⟩]
  simp only [hno.1, hno.2, Bool.false_eq_true, if_false]

/-- C4 witness: a concrete internal-server-error status. -/
theorem C4_witness :
    keyMissing (some "hf_token") = false ∧ 400 ≤ 500 ∧ 500 < 600 ∧
    query_huggingface (some "hf_token") "p" "" (.response 500 (.ok Json.null)) =
      "⚠️ Connection error: " ++ httpErrorMsg 500 ++
        "\n\nPlease check:\n- Your internet connection\n- Your HF_API_KEY\n- The API endpoint URL" :=
  ⟨by decide, by decide, by decide,
    C4_amended_generic_connection_error (some "hf_token") "p" "" (.ok Json.null) 500
      (by decide) (by decide) (by decide) (by decide) (by decide) (by decide) (by decide)⟩

/-! ## Claim C5 -/

/-- C5: a successful response whose body is
`\x7b"choices":[\x7b"message":\x7b"content": t\x7d\x7d]\x7d` with `t` non-empty yields `t`
stripped of surrounding whitespace. -/
theorem C5_success_trimmed (key : Option String) (prompt ctx t : String)
    (hk : keyMissing key = false) (ht : t ≠ "") :
    query_huggingface key prompt ctx
      (.response 200 (.ok (Json.obj
        [("choices", Json.arr [Json.obj
          [("message", Json.obj [("content", Json.str t)])]])]))) = pyStrip t := by
  have htruthy : (t != "") = true := bne_iff_ne.mpr ht
  unfold query_huggingface
  rw [hk]
  simp only [Bool.false_eq_true, if_false]
  simp [tryBody, extractFromResult, pyInOp, pySubscriptStr, lookupKey, pyLen,
    pyIndex0, pyDictGet, pyTruthy, pyStripAttr, htruthy]

/-- C5 witness: content `"  Hello  "` is returned as `"Hello"`. -/
theorem C5_witness :
    keyMissing (some "hf_token") = false ∧ "  Hello  " ≠ "" ∧
    query_huggingface (some "hf_token") "p" ""
      (.response 200 (.ok (Json.obj
        [("choices", Json.arr [Json.obj
          [("message", Json.obj [("content", Json.str "  Hello  ")])]])]))) = "Hello" := by
  refine ⟨by decide, by decide, ?_⟩
  have h := C5_success_trimmed (some "hf_token") "p" "" "  Hello  " (by decide) (by decide)
  rw [h]
  decide

/-! ## Claim C6 -/

/-- C6: a successful response whose completion text is the empty string, or
whose `message` or `content` field is absent, yields the fixed
could-not-generate fallback text. -/
theorem C6_empty_content_fallback (key : Option String) (prompt ctx : String)
    (hk : keyMissing key = false) :
    query_huggingface key prompt ctx
      (.response 200 (.ok (Json.obj
        [("choices", Json.arr [Json.obj
          [("message", Json.obj [("content", Json.str "")])]])]))) =
      "I apologize, but I couldn\x27t generate a response. Please try rephrasing your question."
    ∧ query_huggingface key prompt ctx
      (.response 200 (.ok (Json.obj
        [("choices", Json.arr [Json.obj [("message", Json.obj [])]])]))) =
      "I apologize, but I couldn\x27t generate a response. Please try rephrasing your question."
    ∧ query_huggingface key prompt ctx
      (.response 200 (.ok (Json.obj [("choices", Json.arr [Json.obj []])]))) =
      "I apologize, but I couldn\x27t generate a response. Please try rephrasing your question." := by
  refine ⟨?_, ?_, ?_⟩ <;> (unfold query_huggingface; rw [hk]; rfl)

/-- C6 witness: a concrete key and prompt with an empty completion text. -/
theorem C6_witness :
    keyMissing (some "hf_token") = false ∧
    query_huggingface (some "hf_token") "p" ""
      (.response 200 (.ok (Json.obj
        [("choices", Json.arr [Json.obj
          [("message", Json.obj [("content", Json.str "")])]])]))) =
      "I apologize, but I couldn\x27t generate a response. Please try rephrasing your question." :=
  ⟨by decide, (C6_empty_content_fallback (some "hf_token") "p" "" (by decide)).1⟩

/-! ## Claim C7 -/

theorem startsWithL_append (p rest : List Char) :
    startsWithL p (p ++ rest) = true := by
  induction p with
  | nil => rfl
  | cons c cs ih => simp [startsWithL, ih]

theorem occursIn_append (pre pat : List Char) :
    occursIn pat (pre ++ pat) = true := by
  induction pre with
  | nil =>
    cases pat with
    | nil => rfl
    | cons c cs =>
      have h := startsWithL_append (c :: cs) []
      rw [List.append_nil] at h
      simp [occursIn, h]
  | cons c cs ih => simp [occursIn, ih]

/-- Python `b in (a ++ b)` is true: a string contains its own suffix. -/
theorem strContains_append_right (a b : String) :
    strContains (a ++ b) b = true := by
  cases a with
  | mk da =>
    cases b with
    | mk db => exact occursIn_append da db

/-- C7: a successful response whose decoded body is an object with no
`choices` field yields the unexpected-format warning, which contains the raw
decoded body. -/
theorem C7_missing_choices_warning (key : Option String) (prompt ctx : String)
    (kvs : List (String × Json))
    (hno : kvs.any (fun kv => kv.1 == "choices") = false)
    (hk : keyMissing key = false) :
    query_huggingface key prompt ctx (.response 200 (.ok (Json.obj kvs))) =
      "⚠️ Unexpected response format: " ++ pyRepr (Json.obj kvs)
    ∧ strContains
        (query_huggingface key prompt ctx (.response 200 (.ok (Json.obj kvs))))
        (pyRepr (Json.obj kvs)) = true := by
  have hq : query_huggingface key prompt ctx (.response 200 (.ok (Json.obj kvs))) =
      "⚠️ Unexpected response format: " ++ pyRepr (Json.obj kvs) := by
    unfold query_huggingface
    rw [hk]
    simp only [Bool.false_eq_true, if_false]
    unfold tryBody extractFromResult
    simp only [pyInOp, hno]
    rfl
  exact ⟨hq, by rw [hq]; exact strContains_append_right _ _⟩

/-- C7 witness: a concrete error body without a `choices` field. -/
theorem C7_witness :
    (([("error", Json.str "Bad Gateway")] : List (String × Json)).any
      (fun kv => kv.1 == "choices")) = false ∧
    query_huggingface (some "hf_token") "p" ""
      (.response 200 (.ok (Json.obj [("error", Json.str "Bad Gateway")]))) =
      "⚠️ Unexpected response format: " ++ pyRepr (Json.obj [("error", Json.str "Bad Gateway")]) :=
  ⟨by decide,
    (C7_missing_choices_warning (some "hf_token") "p" "" [("error", Json.str "Bad Gateway")]
      (by decide) (by decide)).1⟩

/-! ## Claim C8 -/

/-- C8: the fixed system preamble occupies position 0 of every request message
sequence the client constructs, and every store reachable over a process
lifetime holds only user- and assistant-role entries — no system-role entry is
ever stored. -/
theorem C8_system_preamble_invariant (prompt ctx : String) {msgs : List Message}
    (h : Reachable msgs) :
    (buildMessages prompt ctx).head? = some ⟨"system", SYSTEM_PROMPT⟩
    ∧ ∀ m ∈ msgs, m.role = "user" ∨ m.role = "assistant" := by
  refine ⟨rfl, ?_⟩
  induction h with
  | init => intro m hm; cases hm
  | send hr hp hk ih =>
    intro m hm
    simp only [sendHandler, List.mem_append, List.mem_singleton] at hm
    rcases hm with (hm | rfl) | rfl
    · exact ih m hm
    · exact Or.inl rfl
    · exact Or.inr rfl
  | clear hr ih => intro m hm; cases hm

/-- C8 witness: a store produced by one send from the empty store. -/
theorem C8_witness :
    (buildMessages "q" "").head? = some ⟨"system", SYSTEM_PROMPT⟩
    ∧ ∀ m ∈ sendHandler [] "q" (some "hf_token") (.exn "timeout"),
        m.role = "user" ∨ m.role = "assistant" :=
  C8_system_preamble_invariant "q" ""
    (Reachable.send Reachable.init (by decide) (by decide))

/-! ## Claim C9 -/

/-- The §7 taxonomy of user-readable replies: every string the client can
return is one of the fixed configuration/classification/fallback texts, a
connection- or unexpected-error text carrying an underlying message, an
unexpected-format warning carrying a decoded body, or a stripped completion
text. -/
def clientReplyShapes (r : String) : Prop :=
  r = "❌ HF_API_KEY not found in .env file. Please add your Hugging Face API token."
  ∨ r = "⏳ Model is currently loading. Please try again in a moment."
  ∨ r = "❌ Invalid API key. Please check your HF_API_KEY in the .env file."
  ∨ r = "⚠️ Rate limit reached. Please wait a moment and try again."
  ∨ r = "❌ Authentication failed. Please verify your HF_API_KEY."
  ∨ r = "❌ Model \x27" ++ MODEL_NAME ++ "\x27 not found. Please check your MODEL_NAME in .env file."
  ∨ (∃ m, r = "⚠️ Connection error: " ++ m ++
      "\n\nPlease check:\n- Your internet connection\n- Your HF_API_KEY\n- The API endpoint URL")
  ∨ (∃ m, r = "⚠️ Unexpected error: " ++ m)
  ∨ r = "I apologize, but I couldn\x27t generate a response. Please try rephrasing your question."
  ∨ (∃ j, r = "⚠️ Unexpected response format: " ++ pyRepr j)
  ∨ (∃ t, r = pyStrip t)

theorem pyStripAttr_ok {j : Json} {s : String} (h : pyStripAttr j = .ok s) :
    ∃ t, s = pyStrip t := by
  cases j <;> simp [pyStripAttr] at h
  exact ⟨_, h.symm⟩

theorem extractFromResult_ok {result : Json} {s : String}
    (h : extractFromResult result = .ok s) :
    s = "⚠️ Unexpected response format: " ++ pyRepr result
    ∨ s = "I apologize, but I couldn\x27t generate a response. Please try rephrasing your question."
    ∨ (∃ t, s = pyStrip t) := by
  unfold extractFromResult at h
  split at h
  · simp at h
  · injection h with h
    exact Or.inl h.symm
  · split at h
    · simp at h
    · split at h
      · simp at h
      · split at h
        · split at h
          · simp at h
          · split at h
            · simp at h
            · split at h
              · simp at h
              · split at h
                · exact Or.inr (Or.inr (pyStripAttr_ok h))
                · injection h with h
                  exact Or.inr (Or.inl h.symm)
        · injection h with h
          exact Or.inl h.symm

theorem tryBody_ok {outcome : HttpOutcome} {s : String} (h : tryBody outcome = .ok s) :
    s = "⏳ Model is currently loading. Please try again in a moment."
    ∨ s = "❌ Invalid API key. Please check your HF_API_KEY in the .env file."
    ∨ s = "⚠️ Rate limit reached. Please wait a moment and try again."
    ∨ s = "I apologize, but I couldn\x27t generate a response. Please try rephrasing your question."
    ∨ (∃ j, s = "⚠️ Unexpected response format: " ++ pyRepr j)
    ∨ (∃ t, s = pyStrip t) := by
  unfold tryBody at h
  split at h
  · simp at h
  · split at h
    · injection h with h; exact Or.inl h.symm
    · split at h
      · injection h with h; exact Or.inr (Or.inl h.symm)
      · split at h
        · injection h with h; exact Or.inr (Or.inr (Or.inl h.symm))
        · split at h
          · simp at h
          · split at h
            · simp at h
            · rcases extractFromResult_ok h with h1 | h1 | h1
              · exact Or.inr (Or.inr (Or.inr (Or.inr (Or.inl ⟨_, h1⟩))))
              · exact Or.inr (Or.inr (Or.inr (Or.inl h1)))
              · exact Or.inr (Or.inr (Or.inr (Or.inr (Or.inr h1))))

/-- C9: the completion client is total — for every credential configuration,
prompt, context and endpoint outcome (arrived response of any status with any
decoded or undecodable body, or a raised transport exception) it returns a
string of the §7 taxonomy; every exception is recovered into a user-readable
reply, none escapes. -/
theorem C9_total_classification (key : Option String) (prompt ctx : String)
    (outcome : HttpOutcome) :
    clientReplyShapes (query_huggingface key prompt ctx outcome) := by
  unfold query_huggingface
  by_cases hk : keyMissing key = true
  · rw [if_pos hk]
    exact Or.inl rfl
  · rw [if_neg hk]
    cases h : tryBody outcome with
    | ok s =>
      show clientReplyShapes s
      rcases tryBody_ok h with h1 | h1 | h1 | h1 | ⟨j, h1⟩ | ⟨t, h1⟩ <;> subst h1
      · exact Or.inr (Or.inl rfl)
      · exact Or.inr (Or.inr (Or.inl rfl))
      · exact Or.inr (Or.inr (Or.inr (Or.inl rfl)))
      · exact Or.inr (Or.inr (Or.inr (Or.inr (Or.inr (Or.inr (Or.inr (Or.inr (Or.inl rfl))))))))
      · exact Or.inr (Or.inr (Or.inr (Or.inr (Or.inr (Or.inr (Or.inr (Or.inr (Or.inr (Or.inl ⟨j, rfl⟩)))))))))
      · exact Or.inr (Or.inr (Or.inr (Or.inr (Or.inr (Or.inr (Or.inr (Or.inr (Or.inr (Or.inr ⟨t, rfl⟩)))))))))
    | error e =>
      cases e with
      | requestException m =>
        show clientReplyShapes (if strContains m "401" = true then _ else _)
        by_cases h401 : strContains m "401" = true
        · rw [if_pos h401]
          exact Or.inr (Or.inr (Or.inr (Or.inr (Or.inl rfl))))
        · rw [if_neg h401]
          by_cases h404 : strContains m "404" = true
          · rw [if_pos h404]
            exact Or.inr (Or.inr (Or.inr (Or.inr (Or.inr (Or.inl rfl)))))
          · rw [if_neg h404]
            exact Or.inr (Or.inr (Or.inr (Or.inr (Or.inr (Or.inr (Or.inl ⟨m, rfl⟩))))))
      | otherException m =>
        show clientReplyShapes ("⚠️ Unexpected error: " ++ m)
        exact Or.inr (Or.inr (Or.inr (Or.inr (Or.inr (Or.inr (Or.inr (Or.inl ⟨m, rfl⟩)))))))

/-! ## Claim C10 -/

/-- Spec-side reading of the claim: the lines the reconstruction keeps. -/
def isRoleLine (l : String) : Bool :=
  pyStartsWith l "User:" || pyStartsWith l "Assistant:"

/-- Spec-side reading of the claim: the entry emitted for a kept line — the
matched prefix token is removed at every occurrence and the rest stripped. -/
def roleLineEntry (l : String) : Message :=
  if pyStartsWith l "User:" then ⟨"user", pyStrip (pyReplace l "User:" "")⟩
  else ⟨"assistant", pyStrip (pyReplace l "Assistant:" "")⟩

theorem filterMap_parseHistoryLine (lines : List String) :
    lines.filterMap parseHistoryLine = (lines.filter isRoleLine).map roleLineEntry := by
  induction lines with
  | nil => rfl
  | cons l ls ih =>
    by_cases h1 : pyStartsWith l "User:" = true
    · simp [List.filterMap_cons, List.filter_cons, parseHistoryLine, isRoleLine,
        roleLineEntry, h1, ih]
    · by_cases h2 : pyStartsWith l "Assistant:" = true
      · simp [List.filterMap_cons, List.filter_cons, parseHistoryLine, isRoleLine,
          roleLineEntry, h1, h2, ih]
      · simp [List.filterMap_cons, List.filter_cons, parseHistoryLine, isRoleLine,
          roleLineEntry, h1, h2, ih]

/-- C10: for a non-empty context string the reconstructed history is exactly
one role-tagged entry, in order, per line starting with `"User:"` or
`"Assistant:"`; every other line — including continuation lines of a
multi-line message — is dropped, and every occurrence of the matched token
(not only the leading one) is removed from the emitted content, as the
concrete instances show. -/
theorem C10_line_based_reconstruction (ctx : String) (h : ctx ≠ "") :
    parseHistory ctx = ((splitLines ctx).filter isRoleLine).map roleLineEntry
    ∧ (∀ line, pyStartsWith line "User:" = false →
        pyStartsWith line "Assistant:" = false → parseHistoryLine line = none)
    ∧ parseHistoryLine "User: a User: b" = some ⟨"user", "a  b"⟩
    ∧ parseHistory "User: first line\nsecond line continues\nAssistant: reply" =
        [⟨"user", "first line"⟩, ⟨"assistant", "reply"⟩] := by
  refine ⟨?_, ?_, by decide, by decide⟩
  · unfold parseHistory
    rw [if_neg h]
    exact filterMap_parseHistoryLine _
  · intro line hu ha
    unfold parseHistoryLine
    rw [hu, ha]
    rfl

/-- C10 witness: a concrete two-line context. -/
theorem C10_witness :
    ("User: hi\nAssistant: hello" : String) ≠ ""
    ∧ parseHistory "User: hi\nAssistant: hello" =
        ((splitLines "User: hi\nAssistant: hello").filter isRoleLine).map roleLineEntry :=
  ⟨by decide, (C10_line_based_reconstruction "User: hi\nAssistant: hello" (by decide)).1⟩

end Stockapp
